import Mathlib

/-!
Shallow embedding of the AntEater ant-colony simulation (JavaScript sources
under src/js/) and verification of spec claims about it.

Modelling conventions:
* JS floating-point numbers are embedded as rationals (ℚ); the formulas in
  scope use only field operations, `min`/`max`, floor and ceil, so ℚ is exact.
* `Math.exp`, `Math.sqrt`, `Math.cos`, `Math.sin`, `Math.PI` and
  `Math.random()` draws are passed in as explicit function/value parameters,
  so every definition stays computable and theorems quantify over them.
* The comparison `Math.sqrt(d) <= radius` (with `d` a sum of squares, hence
  nonnegative) is embedded as `d ≤ radius ^ 2`, which is equivalent for
  `0 ≤ radius` in exact arithmetic.
* The spatial hash `Map` keyed by the string `"gx,gy"` is embedded as a total
  function `ℤ × ℤ → List Pheromone`; `map.get(k) || []` is the application of
  that function, and `map.delete` of an empty bucket is observationally the
  assignment of `[]`.
* JS objects are aliased between the flat list and the grid buckets; in-place
  mutation of a deposit is embedded by applying the same per-deposit step to
  the list and to every bucket.
* The JS unique id `Date.now() + Math.random()` is embedded by a deterministic
  counter `nextId` in the system state.
* Rendering (graphics, tweens, sprite updates) is out of scope per the spec
  and omitted.
-/

/-- The pheromone `type` field: 'food_trail', 'exploration', 'danger'. -/
inductive PType where
  | food_trail
  | exploration
  | danger
deriving DecidableEq, Repr

/-- A pheromone deposit object, as constructed in
`PheromoneSystem.addPheromone` (src/js/pheromone.js:31-41).
The JS field `type` is named `ptype` here. -/
structure Pheromone where
  x : ℚ
  y : ℚ
  ptype : PType
  intensity : ℚ
  maxIntensity : ℚ
  age : ℚ
  id : ℕ
  trailLength : ℚ
  lastFollowerCount : ℚ
deriving DecidableEq, Repr

/-- The `PheromoneSystem` state (src/js/pheromone.js:1-19), restricted to the
simulation-relevant fields (graphics fields omitted). -/
structure PheromoneSystem where
  pheromones : List Pheromone
  decayRate : ℚ
  foodTrailDecayRate : ℚ
  maxPheromones : ℕ
  gridSize : ℚ
  grid : ℤ × ℤ → List Pheromone
  foodTrailMaxAge : ℚ
  removalThreshold : ℚ
  nextId : ℕ

/-- The constructor values of `PheromoneSystem` (src/js/pheromone.js:2-19). -/
def initialPheromoneSystem : PheromoneSystem where
  pheromones := []
  decayRate := 1/1000
  foodTrailDecayRate := 307/1000
  maxPheromones := 2000
  gridSize := 20
  grid := fun _ => []
  foodTrailMaxAge := 15000
  removalThreshold := 1/100
  nextId := 0

/-- `getGridKey(x, y)` (src/js/pheromone.js:228-232): the grid cell
`(floor(x / gridSize), floor(y / gridSize))`. -/
def PheromoneSystem.getGridKey (s : PheromoneSystem) (x y : ℚ) : ℤ × ℤ :=
  (⌊x / s.gridSize⌋, ⌊y / s.gridSize⌋)

/-- Stable insertion of a deposit into a list sorted by ascending `age`:
the deposit goes in front of the first element of strictly larger-or-equal
age, matching the placement a stable sort gives a freshly compared element. -/
def insertByAge (p : Pheromone) : List Pheromone → List Pheromone
  | [] => [p]
  | q :: rest => if p.age ≤ q.age then p :: q :: rest else q :: insertByAge p rest

/-- `this.pheromones.sort((a, b) => a.age - b.age)` (src/js/pheromone.js:54):
JS `Array.prototype.sort` is stable (ES2019) and the comparator is a total
preorder on `age`, so any stable sort computes the same list; we use a stable
insertion sort. -/
def sortByAge (l : List Pheromone) : List Pheromone :=
  l.foldr insertByAge []

/-- `removePheromoneFromGrid(pheromone)` (src/js/pheromone.js:249-264):
drop the deposit (reference equality, embedded as `id` equality) from the
bucket keyed by its own position. -/
def PheromoneSystem.removePheromoneFromGrid (s : PheromoneSystem) (p : Pheromone) :
    PheromoneSystem :=
  let key := s.getGridKey p.x p.y
  { s with grid := Function.update s.grid key ((s.grid key).eraseP (fun q => q.id == p.id)) }

/-- `removePheromonesFromGrid(pheromones)` (src/js/pheromone.js:266-270). -/
def PheromoneSystem.removePheromonesFromGrid (s : PheromoneSystem) (ps : List Pheromone) :
    PheromoneSystem :=
  ps.foldl PheromoneSystem.removePheromoneFromGrid s

/-- `addPheromone(x, y, type, intensity = 1.0)` (src/js/pheromone.js:21-58):
type-specific intensity adjustment, push onto the flat list, insert into the
grid bucket of `(floor(x/gridSize), floor(y/gridSize))`, then capacity
eviction: if the count exceeds `maxPheromones`, sort by ascending `age` and
splice off the front (the lowest-age deposits) down to the cap. -/
def PheromoneSystem.addPheromone (x y : ℚ) (t : PType) (intensity : ℚ)
    (s : PheromoneSystem) : PheromoneSystem :=
  let adjustedIntensity : ℚ :=
    if t = PType.danger then min (intensity * 3) 5
    else if t = PType.food_trail then min (intensity * (5/2)) 3
    else intensity
  let p : Pheromone :=
    { x := x, y := y, ptype := t, intensity := min adjustedIntensity 5
      maxIntensity := adjustedIntensity, age := 0, id := s.nextId
      trailLength := if t = PType.food_trail then 1 else 0
      lastFollowerCount := 0 }
  let key := s.getGridKey x y
  let s1 : PheromoneSystem :=
    { s with pheromones := s.pheromones ++ [p]
             grid := Function.update s.grid key (s.grid key ++ [p])
             nextId := s.nextId + 1 }
  if s1.maxPheromones < s1.pheromones.length then
    let sorted := sortByAge s1.pheromones
    let excess := sorted.length - s1.maxPheromones
    let toRemove := sorted.take excess
    let s2 := { s1 with pheromones := sorted.drop excess }
    s2.removePheromonesFromGrid toRemove
  else s1

/-- The body of the decay loop of `update(time, delta)`
(src/js/pheromone.js:62-106) applied to one deposit: age by `delta`; danger
deposits are skipped entirely (`continue`); food trails are force-removed at
`foodTrailMaxAge`, otherwise linearly decayed (the first assignment at
lines 81-84 is overwritten by the follower-bonus assignment at lines 87-89,
both are kept here); other types decay exponentially (through the `Math.exp`
parameter `expFn`) with an optional follower bonus; finally non-danger
deposits below `removalThreshold` are removed.
Returns `none` when the deposit is removed. -/
def decayStep (expFn : ℚ → ℚ) (s : PheromoneSystem) (delta : ℚ) (q : Pheromone) :
    Option Pheromone :=
  let p := { q with age := q.age + delta }
  if p.ptype = PType.danger then
    some p
  else if p.ptype = PType.food_trail then
    if s.foodTrailMaxAge ≤ p.age then none
    else
      let decayProgress := p.age / s.foodTrailMaxAge
      let p1 := { p with intensity := max (p.maxIntensity * (1 - decayProgress)) s.removalThreshold }
      let followerBonus := min (p1.trailLength * (1/2)) 2
      let timeReducedIntensity := p1.maxIntensity * (1 - decayProgress) + followerBonus
      let p2 := { p1 with intensity := min timeReducedIntensity 5 }
      if p2.intensity < s.removalThreshold then none else some p2
  else
    let p1 := { p with intensity := p.maxIntensity * expFn (-(p.age * s.decayRate)) }
    let p2 :=
      if 0 < p1.trailLength then
        { p1 with intensity := min (p1.maxIntensity + min (p1.trailLength * (1/2)) 2) 5 }
      else p1
    if p2.intensity < s.removalThreshold then none else some p2

/-- `update(time, delta)` (src/js/pheromone.js:60-113), decay pass only (the
visual refresh is rendering and out of scope).  The JS backward iteration
with `splice` treats each deposit independently, so it is the `filterMap` of
`decayStep`; grid buckets alias the same objects, so the same step is applied
bucket-wise. -/
def PheromoneSystem.update (expFn : ℚ → ℚ) (delta : ℚ) (s : PheromoneSystem) :
    PheromoneSystem :=
  { s with pheromones := s.pheromones.filterMap (decayStep expFn s delta)
           grid := fun k => (s.grid k).filterMap (decayStep expFn s delta) }

/-- The type filter `if (type && pheromone.type !== type) continue`
(src/js/pheromone.js:132): `none` embeds the JS `null` default. -/
def typeMatches (tf : Option PType) (p : Pheromone) : Bool :=
  match tf with
  | none => true
  | some t => p.ptype == t

/-- `getNearbyGridCells(x, y, radius)` (src/js/pheromone.js:234-247): all
cells within `ceil(radius / gridSize)` of the center cell, outer loop over
`dx`, inner over `dy`. -/
def PheromoneSystem.getNearbyGridCells (s : PheromoneSystem) (x y radius : ℚ) :
    List (ℤ × ℤ) :=
  let cellRadius : ℤ := ⌈radius / s.gridSize⌉
  let centerX : ℤ := ⌊x / s.gridSize⌋
  let centerY : ℤ := ⌊y / s.gridSize⌋
  (List.range (2 * cellRadius + 1).toNat).flatMap (fun i =>
    (List.range (2 * cellRadius + 1).toNat).map (fun j =>
      (centerX - cellRadius + i, centerY - cellRadius + j)))

/-- The body of the inner loop of `findStrongestPheromone`
(src/js/pheromone.js:125-143), folded over an accumulator
`(strongestPheromone, strongestIntensity)`.  The source computes
`distance = Math.sqrt(distSq)` and tests `distance <= radius`; for
`0 ≤ radius` this is exactly `distSq ≤ radius ^ 2`, which is how the test is
embedded; the distance weighting itself uses the `Math.sqrt` parameter
`sqrtFn`. -/
def considerPheromone (sqrtFn : ℚ → ℚ) (x y radius : ℚ) (tf : Option PType)
    (acc : Option Pheromone × ℚ) (p : Pheromone) : Option Pheromone × ℚ :=
  let distSq := (p.x - x) ^ 2 + (p.y - y) ^ 2
  if distSq ≤ radius ^ 2 then
    if typeMatches tf p then
      let distance := sqrtFn distSq
      let distanceWeight := 1 - distance / radius
      let weightedIntensity := p.intensity * distanceWeight
      if acc.2 < weightedIntensity then (some p, weightedIntensity) else acc
    else acc
  else acc

/-- `findStrongestPheromone(x, y, radius, type = null)`
(src/js/pheromone.js:115-147): scan the nearby grid cells' buckets, keep the
deposit with the greatest distance-weighted intensity among those within
`radius` that match the type filter; `null` (here `none`) when there is
none. -/
def PheromoneSystem.findStrongestPheromone (sqrtFn : ℚ → ℚ) (x y radius : ℚ)
    (tf : Option PType) (s : PheromoneSystem) : Option Pheromone :=
  let nearbyCells := s.getNearbyGridCells x y radius
  (nearbyCells.foldl
    (fun acc cell => (s.grid cell).foldl (considerPheromone sqrtFn x y radius tf) acc)
    (none, 0)).1

/-- The ant role strings (src/js/colony.js:11). -/
inductive Role where
  | worker
  | soldier
  | scout
  | forager
  | nurse
  | queen
deriving DecidableEq, Repr

/-- A spawned ant, restricted to the fields `Colony.spawnAnt` sets through
the `Ant` constructor that matter here: spawn position and role. -/
structure AntM where
  x : ℚ
  y : ℚ
  role : Role
deriving DecidableEq, Repr

/-- The `Colony` state (src/js/colony.js:1-50), restricted to the fields
read or written by `spawnAnt` (visuals and timers omitted). -/
structure Colony where
  x : ℚ
  y : ℚ
  ants : List AntM
  foodStorage : ℚ
  population : ℕ
  maxPopulation : ℕ
  hasQueen : Bool
  totalAntsBorn : ℕ
  spawnCost : ℚ
deriving DecidableEq, Repr

/-- `this.roles` (src/js/colony.js:11). -/
def colonyRoles : List Role :=
  [Role.worker, Role.soldier, Role.scout, Role.forager, Role.nurse]

/-- `Colony.spawnAnt()` (src/js/colony.js:52-81).  The three `Math.random()`
draws (queen chance, role index, spawn offsets) are the parameters
`rQueen rRole rx ry`.  Returns the JS return value paired with the
post-state. -/
def Colony.spawnAnt (rQueen rRole rx ry : ℚ) (c : Colony) : Option AntM × Colony :=
  if c.maxPopulation ≤ c.ants.length then (none, c)
  else if c.foodStorage < c.spawnCost then (none, c)
  else
    let queenPick := !c.hasQueen && decide (rQueen < 1/20)
    let role := if queenPick then Role.queen
      else colonyRoles.getD (⌊rRole * 5⌋).toNat Role.worker
    let hasQueen1 := if queenPick then true else c.hasQueen
    let spawnX := c.x + (rx - 1/2) * 40
    let spawnY := c.y + (ry - 1/2) * 40
    let ant : AntM := { x := spawnX, y := spawnY, role := role }
    let ants1 := c.ants ++ [ant]
    (some ant,
      { c with hasQueen := hasQueen1
               foodStorage := c.foodStorage - c.spawnCost
               ants := ants1
               population := ants1.length
               totalAntsBorn := c.totalAntsBorn + 1 })

/-- The hazard-exposure fields of an `Ant` (src/js/ant.js), plus `energy` and
a `dead` flag embedding the effect of `die()` on liveness. -/
structure AntHazard where
  inPuddle : Bool
  puddleTime : ℚ
  puddleDamageApplied : Bool
  energy : ℚ
  dead : Bool
deriving DecidableEq, Repr

/-- `Ant.handlePuddleDamage(delta)` (src/js/ant.js:706-749).
`hasPuddleSystem` embeds `this.scene.puddleSystem` being present,
`inPuddleNow` the result of `puddleSystem.checkAntInPuddle(this)`.
Inside a puddle, exposure time accumulates in seconds (`delta / 1000`); at
2 s a one-time 50% energy penalty applies; at 3.5 s the ant dies; leaving
the puddle (or puddles being disabled) resets the timer and the penalty
flag. -/
def handlePuddleDamage (hasPuddleSystem inPuddleNow : Bool) (delta : ℚ)
    (a : AntHazard) : AntHazard :=
  if !hasPuddleSystem then
    { a with inPuddle := false, puddleTime := 0, puddleDamageApplied := false }
  else if inPuddleNow then
    if !a.inPuddle then
      { a with inPuddle := true, puddleTime := 0, puddleDamageApplied := false }
    else
      let a1 := { a with puddleTime := a.puddleTime + delta / 1000 }
      let a2 :=
        if 2 ≤ a1.puddleTime ∧ a1.puddleDamageApplied = false then
          { a1 with energy := a1.energy * (1/2), puddleDamageApplied := true }
        else a1
      if 7/2 ≤ a2.puddleTime then { a2 with dead := true } else a2
  else
    if a.inPuddle then
      { a with inPuddle := false, puddleTime := 0, puddleDamageApplied := false }
    else a

/-- The `PuddleSystem` state (src/js/puddle.js:1-8), restricted to the field
`releaseDangerPheromones` reads. -/
structure PuddleSystemM where
  dangerPheromoneStrength : ℚ
deriving DecidableEq, Repr

/-- The constructor value `this.dangerPheromoneStrength = 2.0`
(src/js/puddle.js:7). -/
def initialPuddleSystem : PuddleSystemM := { dangerPheromoneStrength := 2 }

/-- The sequence of `addPheromone` calls issued by the loop of
`PuddleSystem.releaseDangerPheromones(x, y, deathCount)`
(src/js/puddle.js:111-127): `min(deathCount * 8, 30)` calls, each at a
`cos`/`sin`-offset position (through the `Math.PI`, `Math.random` and
trigonometric parameters) and each with type danger and strength
`min(dangerPheromoneStrength * (deathCount / 3), 4.0)`.
Entries are `(px, py, strength)`. -/
def dangerPheromoneCalls (ps : PuddleSystemM) (x y : ℚ) (deathCount : ℕ)
    (piQ : ℚ) (randDist : ℕ → ℚ) (cosFn sinFn : ℚ → ℚ) : List (ℚ × ℚ × ℚ) :=
  let pheromoneRadius : ℚ := 80
  let numPheromones : ℕ := min (deathCount * 8) 30
  (List.range numPheromones).map (fun (i : ℕ) =>
    let angle := (piQ * 2 * (i : ℚ)) / (numPheromones : ℚ)
    let distance := randDist i * pheromoneRadius
    let px := x + cosFn angle * distance
    let py := y + sinFn angle * distance
    let strength := min (ps.dangerPheromoneStrength * ((deathCount : ℚ) / 3)) 4
    (px, py, strength))

/-- `PuddleSystem.releaseDangerPheromones(x, y, deathCount)`
(src/js/puddle.js:111-127): perform the buffered `addPheromone` calls, in
loop order, on the pheromone system. -/
def releaseDangerPheromones (ps : PuddleSystemM) (x y : ℚ) (deathCount : ℕ)
    (piQ : ℚ) (randDist : ℕ → ℚ) (cosFn sinFn : ℚ → ℚ)
    (s : PheromoneSystem) : PheromoneSystem :=
  (dangerPheromoneCalls ps x y deathCount piQ randDist cosFn sinFn).foldl
    (fun s c => PheromoneSystem.addPheromone c.1 c.2.1 PType.danger c.2.2 s) s

/-- A `FoodSource` (src/js/food.js), restricted to the fields
`Ant.collectFood` reads and writes. -/
structure FoodSrc where
  amount : ℚ
  active : Bool
deriving DecidableEq, Repr

/-- `FoodSource.isDepleted()` (src/js/food.js:151-153):
`!this.active || this.amount <= 0`. -/
def FoodSrc.isDepleted (f : FoodSrc) : Bool :=
  !f.active || decide (f.amount ≤ 0)

/-- The food-carrying fields of an `Ant` that `collectFood` touches;
`hasTarget` embeds `this.target` being non-null. -/
structure AntFood where
  foodAmount : ℚ
  maxFoodCarry : ℚ
  carryingFood : Bool
  hasTarget : Bool
deriving DecidableEq, Repr

/-- `Ant.collectFood(foodSource)` (src/js/ant.js:522-542): transfer
`min(maxFoodCarry - foodAmount, foodSource.amount)`; set `carryingFood` and
clear the target when holding food and (full or source depleted); finally
clear the target if the source is depleted.  The `updateVisual()` call is
rendering and out of scope.  Returns the ant and source post-states. -/
def collectFood (a : AntFood) (f : FoodSrc) : AntFood × FoodSrc :=
  if f.active && decide (0 < f.amount) then
    let collected := min (a.maxFoodCarry - a.foodAmount) f.amount
    let a1 := { a with foodAmount := a.foodAmount + collected }
    let f1 := { f with amount := f.amount - collected }
    let a2 :=
      if 0 < a1.foodAmount ∧ (a1.maxFoodCarry ≤ a1.foodAmount ∨ f1.isDepleted = true) then
        { a1 with carryingFood := true, hasTarget := false }
      else a1
    let a3 := if f1.isDepleted then { a2 with hasTarget := false } else a2
    (a3, f1)
  else (a, f)

/-! ## Helper lemmas about the decay pass -/

/-- `decayStep` never changes a deposit's identity. -/
theorem decayStep_some_id (expFn : ℚ → ℚ) (s : PheromoneSystem) (delta : ℚ)
    (q r : Pheromone) (h : decayStep expFn s delta q = some r) : r.id = q.id := by
  simp only [decayStep] at h
  split_ifs at h <;> simp_all <;> subst h <;> rfl

/-- A danger deposit only ages under `decayStep`; it is never dropped and its
intensity is untouched. -/
theorem decayStep_danger (expFn : ℚ → ℚ) (s : PheromoneSystem) (delta : ℚ)
    (q : Pheromone) (hd : q.ptype = PType.danger) :
    decayStep expFn s delta q = some { q with age := q.age + delta } := by
  simp [decayStep, hd]

/-- A food-trail deposit whose accumulated age reaches `foodTrailMaxAge` is
dropped by `decayStep`. -/
theorem decayStep_food_trail_expired (expFn : ℚ → ℚ) (s : PheromoneSystem)
    (delta : ℚ) (q : Pheromone) (ht : q.ptype = PType.food_trail)
    (hage : s.foodTrailMaxAge ≤ q.age + delta) :
    decayStep expFn s delta q = none := by
  simp [decayStep, ht, hage]

/-! ## C1: danger deposits are immortal under the decay pass -/

/-- C1: for every pheromone deposit of type danger, the decay pass
(`PheromoneSystem.update`) leaves its intensity unchanged and never removes
it, for any elapsed `delta`, any `Math.exp` behaviour and any age: the aged
copy of the deposit — identical in every field except `age` — is still in
the field, and its intensity is unchanged. -/
theorem c1_danger_deposits_survive_update (expFn : ℚ → ℚ) (delta : ℚ)
    (s : PheromoneSystem) (p : Pheromone)
    (hmem : p ∈ s.pheromones) (hd : p.ptype = PType.danger) :
    { p with age := p.age + delta } ∈ (s.update expFn delta).pheromones ∧
      ({ p with age := p.age + delta } : Pheromone).intensity = p.intensity := by
  refine ⟨?_, rfl⟩
  simp only [PheromoneSystem.update, List.mem_filterMap]
  exact ⟨p, hmem, decayStep_danger expFn s delta p hd⟩

/-- A concrete field holding one danger deposit. -/
def dangerWitnessState : PheromoneSystem :=
  { initialPheromoneSystem with
      pheromones := [{ x := 0, y := 0, ptype := PType.danger, intensity := 3, maxIntensity := 3,
                       age := 0, id := 0, trailLength := 0, lastFollowerCount := 0 }]
      nextId := 1 }

/-- Witness for C1: a danger deposit of intensity 3 at age 0 survives a
decay pass of 5 ms with its intensity unchanged. -/
theorem c1_witness :
    ({ x := 0, y := 0, ptype := PType.danger, intensity := 3, maxIntensity := 3,
       age := (0:ℚ) + 5, id := 0, trailLength := 0, lastFollowerCount := 0 } : Pheromone) ∈
        (dangerWitnessState.update (fun _ => 1) 5).pheromones ∧ (3:ℚ) = 3 :=
  c1_danger_deposits_survive_update (fun _ => 1) 5 dangerWitnessState
    { x := 0, y := 0, ptype := PType.danger, intensity := 3, maxIntensity := 3,
      age := 0, id := 0, trailLength := 0, lastFollowerCount := 0 }
    (List.mem_singleton.mpr rfl) rfl

/-! ## C2: food-trail deposits are removed once age reaches `foodTrailMaxAge` -/

/-- C2: for every deposit of type food_trail, after a decay pass
(`PheromoneSystem.update`) in which its accumulated age reaches or exceeds
`foodTrailMaxAge`, the deposit no longer exists in the field, regardless of
its intensity or follower count (`huniq` pins the deposit's identity, which
the JS unique id guarantees). -/
theorem c2_food_trail_removed_at_max_age (expFn : ℚ → ℚ) (delta : ℚ)
    (s : PheromoneSystem) (p : Pheromone)
    (_hmem : p ∈ s.pheromones) (ht : p.ptype = PType.food_trail)
    (hage : s.foodTrailMaxAge ≤ p.age + delta)
    (huniq : ∀ q ∈ s.pheromones, q.id = p.id → q = p) :
    ∀ q ∈ (s.update expFn delta).pheromones, q.id ≠ p.id := by
  intro q hq hid
  simp only [PheromoneSystem.update, List.mem_filterMap] at hq
  obtain ⟨a, ha, hstep⟩ := hq
  rw [decayStep_some_id expFn s delta a q hstep] at hid
  rw [huniq a ha hid] at hstep
  rw [decayStep_food_trail_expired expFn s delta p ht hage] at hstep
  exact Option.noConfusion hstep

/-- A concrete field holding the single food-trail deposit produced by a
`t = 0` deposit of base intensity 1.0 (stored intensity `2.5·1.0 = 5/2`). -/
def foodTrailWitnessState : PheromoneSystem :=
  { initialPheromoneSystem with
      pheromones := [{ x := 0, y := 0, ptype := PType.food_trail, intensity := 5/2,
                       maxIntensity := 5/2, age := 0, id := 0, trailLength := 1,
                       lastFollowerCount := 0 }]
      nextId := 1 }

/-- Witness for C2: a single food-trail deposit placed at `t = 0`, after
ticking forward by the full `foodTrailMaxAge` (15000 ms), is gone: no stored
deposit carries its id. -/
theorem c2_witness :
    (foodTrailWitnessState.update (fun _ => 1) 15000).pheromones.countP
        (fun q => q.id == 0) = 0 := by
  rw [List.countP_eq_zero]
  intro q hq
  simpa using
    c2_food_trail_removed_at_max_age (fun _ => 1) 15000 foodTrailWitnessState
      { x := 0, y := 0, ptype := PType.food_trail, intensity := 5/2, maxIntensity := 5/2,
        age := 0, id := 0, trailLength := 1, lastFollowerCount := 0 }
      (List.mem_singleton.mpr rfl) rfl (by norm_num [foodTrailWitnessState, initialPheromoneSystem])
      (by intro r hr _; simpa [foodTrailWitnessState] using hr) q hq

/-! ## C3: `findStrongestPheromone` only returns in-radius, type-matching deposits -/

/-- One scan step preserves soundness of the accumulator: any deposit it can
hold passed the radius test and the type filter. -/
theorem considerPheromone_sound (sqrtFn : ℚ → ℚ) (x y radius : ℚ) (tf : Option PType)
    (acc : Option Pheromone × ℚ) (p : Pheromone)
    (hacc : ∀ r, acc.1 = some r →
      (r.x - x) ^ 2 + (r.y - y) ^ 2 ≤ radius ^ 2 ∧ typeMatches tf r = true) :
    ∀ r, (considerPheromone sqrtFn x y radius tf acc p).1 = some r →
      (r.x - x) ^ 2 + (r.y - y) ^ 2 ≤ radius ^ 2 ∧ typeMatches tf r = true := by
  intro r hr
  simp only [considerPheromone] at hr
  split_ifs at hr with h1 h2 h3
  · simp only at hr
    cases hr
    exact ⟨h1, h2⟩
  · exact hacc r hr
  · exact hacc r hr
  · exact hacc r hr

/-- Soundness of the accumulator is preserved along one grid bucket. -/
theorem foldl_considerPheromone_sound (sqrtFn : ℚ → ℚ) (x y radius : ℚ)
    (tf : Option PType) (l : List Pheromone) (acc : Option Pheromone × ℚ)
    (hacc : ∀ r, acc.1 = some r →
      (r.x - x) ^ 2 + (r.y - y) ^ 2 ≤ radius ^ 2 ∧ typeMatches tf r = true) :
    ∀ r, (l.foldl (considerPheromone sqrtFn x y radius tf) acc).1 = some r →
      (r.x - x) ^ 2 + (r.y - y) ^ 2 ≤ radius ^ 2 ∧ typeMatches tf r = true := by
  induction l generalizing acc with
  | nil => exact hacc
  | cons p l ih =>
      intro r hr
      exact ih (considerPheromone sqrtFn x y radius tf acc p)
        (considerPheromone_sound sqrtFn x y radius tf acc p hacc) r hr

/-- C3: for every query point `(x, y)`, radius `R > 0`, optional type filter
and any `Math.sqrt` behaviour, `findStrongestPheromone` returns either `null`
or a deposit whose Euclidean distance from `(x, y)` is at most `R` (stated as
the squared distance being at most `R ^ 2`, which is equivalent) and whose
type matches the filter when one is given. -/
theorem c3_findStrongestPheromone_in_radius (sqrtFn : ℚ → ℚ) (x y radius : ℚ)
    (tf : Option PType) (s : PheromoneSystem) (_hrad : 0 < radius) (p : Pheromone)
    (hfind : s.findStrongestPheromone sqrtFn x y radius tf = some p) :
    (p.x - x) ^ 2 + (p.y - y) ^ 2 ≤ radius ^ 2 ∧ ∀ t, tf = some t → p.ptype = t := by
  have hmain : ∀ cells : List (ℤ × ℤ), ∀ acc : Option Pheromone × ℚ,
      (∀ r, acc.1 = some r →
        (r.x - x) ^ 2 + (r.y - y) ^ 2 ≤ radius ^ 2 ∧ typeMatches tf r = true) →
      ∀ r, (cells.foldl
          (fun acc cell => (s.grid cell).foldl (considerPheromone sqrtFn x y radius tf) acc)
          acc).1 = some r →
        (r.x - x) ^ 2 + (r.y - y) ^ 2 ≤ radius ^ 2 ∧ typeMatches tf r = true := by
    intro cells
    induction cells with
    | nil => intro acc hacc; exact hacc
    | cons c cells ih =>
        intro acc hacc r hr
        exact ih _ (foldl_considerPheromone_sound sqrtFn x y radius tf (s.grid c) acc hacc) r hr
  have h := hmain (s.getNearbyGridCells x y radius) (none, 0) (by intro r hr; cases hr) p hfind
  refine ⟨h.1, ?_⟩
  intro t ht
  have := h.2
  rw [ht] at this
  simpa [typeMatches] using this

/-- A concrete field with one danger deposit at `(5, 5)`, indexed in grid
cell `(0, 0)`. -/
def strongestWitnessState : PheromoneSystem :=
  { initialPheromoneSystem with
      pheromones := [{ x := 5, y := 5, ptype := PType.danger, intensity := 3, maxIntensity := 3,
                       age := 0, id := 0, trailLength := 0, lastFollowerCount := 0 }]
      grid := Function.update initialPheromoneSystem.grid (0, 0)
        [{ x := 5, y := 5, ptype := PType.danger, intensity := 3, maxIntensity := 3,
           age := 0, id := 0, trailLength := 0, lastFollowerCount := 0 }]
      nextId := 1 }

set_option maxHeartbeats 1000000 in
/-- Witness for C3: querying at `(0, 0)` with radius 20 returns the deposit
at `(5, 5)`, and that deposit is within the radius. -/
theorem c3_witness :
    strongestWitnessState.findStrongestPheromone (fun _ => 0) 0 0 20 none =
        some { x := 5, y := 5, ptype := PType.danger, intensity := 3, maxIntensity := 3,
               age := 0, id := 0, trailLength := 0, lastFollowerCount := 0 } ∧
      (((5:ℚ) - 0) ^ 2 + ((5:ℚ) - 0) ^ 2 ≤ 20 ^ 2 ∧
        ∀ t, (none : Option PType) = some t →
          ({ x := 5, y := 5, ptype := PType.danger, intensity := 3, maxIntensity := 3,
             age := 0, id := 0, trailLength := 0,
             lastFollowerCount := 0 } : Pheromone).ptype = t) := by
  have hfind : strongestWitnessState.findStrongestPheromone (fun _ => 0) 0 0 20 none =
      some { x := 5, y := 5, ptype := PType.danger, intensity := 3, maxIntensity := 3,
             age := 0, id := 0, trailLength := 0, lastFollowerCount := 0 } := by
    norm_num [PheromoneSystem.findStrongestPheromone, PheromoneSystem.getNearbyGridCells,
      considerPheromone, typeMatches, strongestWitnessState, initialPheromoneSystem,
      Function.update, List.range_succ, Int.ceil_one, Prod.ext_iff,
      (show Int.toNat 3 = 3 from rfl),
      List.flatMap_cons, List.flatMap_nil, List.map_cons, List.map_nil,
      List.foldl_cons, List.foldl_nil]
  exact ⟨hfind,
    c3_findStrongestPheromone_in_radius (fun _ => 0) 0 0 20 none strongestWitnessState
      (by norm_num) _ hfind⟩

/-! ## C4: `spawnAnt` is a silent no-op without food or below-cap room -/

/-- C4: for every colony state, calling `spawnAnt()` when
`foodStorage < spawnCost`, or when the live-ant count has reached
`maxPopulation`, returns `null` and leaves the colony unchanged, for any
random draws. -/
theorem c4_spawnAnt_insufficient_resources (rq rr rx ry : ℚ) (c : Colony)
    (h : c.foodStorage < c.spawnCost ∨ c.maxPopulation ≤ c.ants.length) :
    Colony.spawnAnt rq rr rx ry c = (none, c) := by
  simp only [Colony.spawnAnt]
  rcases h with h | h
  all_goals split_ifs <;> simp_all

/-- A colony with `foodStorage = 9` and `spawnCost = 10`. -/
def colonyNine : Colony :=
  { x := 400, y := 300, ants := [], foodStorage := 9, population := 0, maxPopulation := 200,
    hasQueen := false, totalAntsBorn := 0, spawnCost := 10 }

/-- Witness for C4: the `foodStorage = 9`, `spawnCost = 10` colony returns
`null` from `spawnAnt()` and its population is unchanged. -/
theorem c4_witness :
    Colony.spawnAnt (1/2) (1/2) (1/2) (1/2) colonyNine = (none, colonyNine) ∧
      colonyNine.population = 0 :=
  ⟨c4_spawnAnt_insufficient_resources (1/2) (1/2) (1/2) (1/2) colonyNine
      (Or.inl (by norm_num [colonyNine])), rfl⟩

/-! ## C5: stored intensity of a fresh deposit, and its grid cell -/

/-- C5 (amended): for every call to `addPheromone(x, y, type, i)` on a field
below capacity, the stored deposit's initial intensity equals
`min(3·i, 5)` for danger, `min(2.5·i, 3)` for food_trail and `min(i, 5)` —
not `i` — otherwise, and the deposit is inserted into the grid cell keyed by
`(floor(x/gridSize), floor(y/gridSize))`. -/
theorem c5_addPheromone_intensity_and_grid_cell (x y i : ℚ) (t : PType)
    (s : PheromoneSystem) (hlen : s.pheromones.length < s.maxPheromones) :
    ∃ p : Pheromone,
      (PheromoneSystem.addPheromone x y t i s).pheromones = s.pheromones ++ [p] ∧
      p.intensity = (if t = PType.danger then min (3 * i) 5
        else if t = PType.food_trail then min ((5/2) * i) 3
        else min i 5) ∧
      p ∈ (PheromoneSystem.addPheromone x y t i s).grid
        (⌊x / s.gridSize⌋, ⌊y / s.gridSize⌋) := by
  simp only [PheromoneSystem.addPheromone]
  rw [if_neg (by simp only [List.length_append, List.length_singleton]; omega)]
  refine ⟨_, rfl, ?_, ?_⟩
  · show (min (if t = PType.danger then min (i * 3) 5
        else if t = PType.food_trail then min (i * (5/2)) 3 else i) 5) = _
    split_ifs <;> norm_num [min_assoc, mul_comm]
  · simp only [PheromoneSystem.getGridKey]
    rw [Function.update_same]
    exact List.mem_append_right _ (List.mem_singleton.mpr rfl)

/-- Counterexample for C5 as stated: with type exploration and base
intensity 6, the stored intensity is `min(6, 5) = 5`, not the base
intensity 6. -/
theorem c5_counterexample :
    (PheromoneSystem.addPheromone 0 0 PType.exploration 6
        initialPheromoneSystem).pheromones.map Pheromone.intensity = [5] ∧
      ((5:ℚ) ≠ 6) := by
  constructor
  · decide
  · norm_num

/-- Witness for C5 (amended): a danger deposit of base intensity 1 on the
empty initial field is stored at intensity `min(3·1, 5) = 3` and lands in
grid cell `(0, 0)`. -/
theorem c5_witness :
    ∃ p : Pheromone,
      (PheromoneSystem.addPheromone 14 7 PType.danger 1
          initialPheromoneSystem).pheromones = initialPheromoneSystem.pheromones ++ [p] ∧
      p.intensity = (if PType.danger = PType.danger then min (3 * 1) 5
        else if PType.danger = PType.food_trail then min ((5/2) * 1) 3
        else min 1 5) ∧
      p ∈ (PheromoneSystem.addPheromone 14 7 PType.danger 1 initialPheromoneSystem).grid
        (⌊(14:ℚ) / initialPheromoneSystem.gridSize⌋, ⌊(7:ℚ) / initialPheromoneSystem.gridSize⌋) :=
  c5_addPheromone_intensity_and_grid_cell 14 7 1 PType.danger initialPheromoneSystem
    (by norm_num [initialPheromoneSystem])

/-! ## C6 / C10: capacity eviction -/

theorem insertByAge_length (p : Pheromone) (l : List Pheromone) :
    (insertByAge p l).length = l.length + 1 := by
  induction l with
  | nil => rfl
  | cons q rest ih => simp only [insertByAge]; split_ifs <;> simp [ih]

theorem sortByAge_length (l : List Pheromone) : (sortByAge l).length = l.length := by
  simp only [sortByAge]
  induction l with
  | nil => rfl
  | cons q rest ih => simp [List.foldr_cons, insertByAge_length, ih]

/-- Removing deposits from the grid never touches the flat list. -/
theorem removePheromonesFromGrid_pheromones (s : PheromoneSystem) (ps : List Pheromone) :
    (s.removePheromonesFromGrid ps).pheromones = s.pheromones := by
  induction ps generalizing s with
  | nil => rfl
  | cons p rest ih =>
      simp only [PheromoneSystem.removePheromonesFromGrid, List.foldl_cons]
      exact ih (s.removePheromoneFromGrid p)

/-- Removing deposits from the grid never touches `maxPheromones`. -/
theorem removePheromonesFromGrid_maxPheromones (s : PheromoneSystem) (ps : List Pheromone) :
    (s.removePheromonesFromGrid ps).maxPheromones = s.maxPheromones := by
  induction ps generalizing s with
  | nil => rfl
  | cons p rest ih =>
      simp only [PheromoneSystem.removePheromonesFromGrid, List.foldl_cons]
      exact ih (s.removePheromoneFromGrid p)

/-- A concrete at-capacity field (cap 2) holding two aged exploration
deposits (ages 5 and 7). -/
def evictionBugState : PheromoneSystem :=
  { initialPheromoneSystem with
      maxPheromones := 2
      pheromones :=
        [{ x := 100, y := 100, ptype := PType.exploration, intensity := 1, maxIntensity := 1,
           age := 5, id := 0, trailLength := 0, lastFollowerCount := 0 },
         { x := 100, y := 100, ptype := PType.exploration, intensity := 1, maxIntensity := 1,
           age := 7, id := 1, trailLength := 0, lastFollowerCount := 0 }]
      grid := Function.update initialPheromoneSystem.grid (5, 5)
        [{ x := 100, y := 100, ptype := PType.exploration, intensity := 1, maxIntensity := 1,
           age := 5, id := 0, trailLength := 0, lastFollowerCount := 0 },
         { x := 100, y := 100, ptype := PType.exploration, intensity := 1, maxIntensity := 1,
           age := 7, id := 1, trailLength := 0, lastFollowerCount := 0 }]
      nextId := 2 }

/-- C6 is false of the code: adding a deposit to the at-capacity field
evicts the *newest* deposit — the one just added, with age 0 (id 2 =
`nextId`) — while the survivors are the strictly older deposits of ages 5
and 7; the eviction sort is ascending in age and the splice drops from the
front, the opposite of "oldest first".  The removed deposit's age 0 is not
`≥` the survivors' ages. -/
theorem c6_counterexample_eviction_removes_newest :
    ((PheromoneSystem.addPheromone 100 100 PType.exploration 1
        evictionBugState).pheromones.map Pheromone.age = [5, 7]) ∧
      ((PheromoneSystem.addPheromone 100 100 PType.exploration 1
          evictionBugState).pheromones.countP (fun q => q.id == 2) = 0) ∧
      ¬ ((0:ℚ) ≥ 5) := by
  refine ⟨by decide, by decide, by norm_num⟩

/-- A concrete at-capacity field (cap 2) of two aged exploration deposits,
indexed at grid cell `(0, 0)`. -/
def dangerEvictionState : PheromoneSystem :=
  { initialPheromoneSystem with
      maxPheromones := 2
      pheromones :=
        [{ x := 0, y := 0, ptype := PType.exploration, intensity := 1, maxIntensity := 1,
           age := 5, id := 0, trailLength := 0, lastFollowerCount := 0 },
         { x := 0, y := 0, ptype := PType.exploration, intensity := 1, maxIntensity := 1,
           age := 7, id := 1, trailLength := 0, lastFollowerCount := 0 }]
      grid := Function.update initialPheromoneSystem.grid (0, 0)
        [{ x := 0, y := 0, ptype := PType.exploration, intensity := 1, maxIntensity := 1,
           age := 5, id := 0, trailLength := 0, lastFollowerCount := 0 },
         { x := 0, y := 0, ptype := PType.exploration, intensity := 1, maxIntensity := 1,
           age := 7, id := 1, trailLength := 0, lastFollowerCount := 0 }]
      nextId := 2 }

/-- C10: after every call to `addPheromone` the total number of stored
deposits is at most `maxPheromones` (which the constructor sets to 2000),
and the capacity eviction does not filter by type: on a concrete
at-capacity field, a freshly added danger deposit is itself evicted, so no
danger deposit survives the call. -/
theorem c10_capacity_bound_and_untyped_eviction :
    (∀ (x y : ℚ) (t : PType) (i : ℚ) (s : PheromoneSystem),
        (PheromoneSystem.addPheromone x y t i s).pheromones.length ≤ s.maxPheromones) ∧
      initialPheromoneSystem.maxPheromones = 2000 ∧
      (PheromoneSystem.addPheromone 0 0 PType.danger 1
          dangerEvictionState).pheromones.countP (fun q => q.ptype == PType.danger) = 0 ∧
      (PheromoneSystem.addPheromone 0 0 PType.danger 1
          dangerEvictionState).pheromones.length = 2 := by
  refine ⟨?_, rfl, by decide, by decide⟩
  intro x y t i s
  simp only [PheromoneSystem.addPheromone]
  split_ifs
  all_goals
    first
      | (rw [removePheromonesFromGrid_pheromones]
         simp only [List.length_drop, sortByAge_length, List.length_append,
           List.length_singleton] at *
         omega)
      | (simp only [List.length_append, List.length_singleton] at *
         omega)

/-! ## C7: puddle hazard exposure -/

/-- C7: with the puddle system present, the hazard-exposure sub-model of
`handlePuddleDamage` satisfies, on every tick: (i) time inside a puddle
accumulates across ticks (in seconds); (ii) when accumulated exposure
reaches 2 s with the one-time flag clear, energy is halved and the flag is
set; (iii) while the flag is set the energy is not halved again; (iv) when
accumulated exposure reaches 3.5 s the ant dies on that tick; (v) on any
tick spent outside every puddle the exposure timer and the flag are reset
(given the invariant `hinv`, which (vi) shows is preserved). -/
theorem c7_puddle_exposure_model (inNow : Bool) (delta : ℚ) (a : AntHazard)
    (hinv : a.inPuddle = false → a.puddleTime = 0 ∧ a.puddleDamageApplied = false) :
    ((inNow = true → a.inPuddle = true →
        (handlePuddleDamage true inNow delta a).puddleTime = a.puddleTime + delta / 1000) ∧
      (inNow = true → a.inPuddle = true → 2 ≤ a.puddleTime + delta / 1000 →
        a.puddleDamageApplied = false →
        (handlePuddleDamage true inNow delta a).energy = a.energy * (1/2) ∧
          (handlePuddleDamage true inNow delta a).puddleDamageApplied = true) ∧
      (inNow = true → a.inPuddle = true → a.puddleDamageApplied = true →
        (handlePuddleDamage true inNow delta a).energy = a.energy) ∧
      (inNow = true → a.inPuddle = true → 7/2 ≤ a.puddleTime + delta / 1000 →
        (handlePuddleDamage true inNow delta a).dead = true) ∧
      (inNow = false → (handlePuddleDamage true inNow delta a).puddleTime = 0 ∧
        (handlePuddleDamage true inNow delta a).puddleDamageApplied = false) ∧
      ((handlePuddleDamage true inNow delta a).inPuddle = false →
        (handlePuddleDamage true inNow delta a).puddleTime = 0 ∧
          (handlePuddleDamage true inNow delta a).puddleDamageApplied = false)) := by
  have hsimp : ∀ b : Bool, (handlePuddleDamage true b delta a) =
      (if b then
        if !a.inPuddle then
          { a with inPuddle := true, puddleTime := 0, puddleDamageApplied := false }
        else
          (let a1 := { a with puddleTime := a.puddleTime + delta / 1000 }
           let a2 :=
             if 2 ≤ a1.puddleTime ∧ a1.puddleDamageApplied = false then
               { a1 with energy := a1.energy * (1/2), puddleDamageApplied := true }
             else a1
           if 7/2 ≤ a2.puddleTime then { a2 with dead := true } else a2)
      else
        if a.inPuddle then
          { a with inPuddle := false, puddleTime := 0, puddleDamageApplied := false }
        else a) := by
    intro b
    simp [handlePuddleDamage]
  cases inNow with
  | false =>
      by_cases hp : a.inPuddle = true
      · simp [hsimp, hp]
      · simp only [Bool.not_eq_true] at hp
        simp [hsimp, hp, hinv hp]
  | true =>
      by_cases hp : a.inPuddle = true
      · refine ⟨fun _ _ => ?_, fun _ _ h2 hf => ?_, fun _ _ hf => ?_,
          fun _ _ h7 => ?_, fun hc => absurd hc (by simp), fun hdead => ?_⟩
        · simp only [hsimp, hp, Bool.not_true, if_true, Bool.false_eq_true, if_false]
          split_ifs <;> rfl
        · simp only [hsimp, hp, Bool.not_true, if_true, Bool.false_eq_true, if_false]
          split_ifs with hpen hdie <;>
            first
              | exact ⟨rfl, rfl⟩
              | exact (hpen ⟨h2, hf⟩).elim
        · simp only [hsimp, hp, Bool.not_true, if_true, Bool.false_eq_true, if_false]
          split_ifs with hpen <;>
            first
              | rfl
              | exact absurd hpen.2 (by simp [hf])
        · simp only [hsimp, hp, Bool.not_true, if_true, Bool.false_eq_true, if_false]
          split_ifs <;> rfl
        · exfalso
          revert hdead
          simp only [hsimp, hp, Bool.not_true, if_true, Bool.false_eq_true, if_false]
          split_ifs <;> simp
      · simp only [Bool.not_eq_true] at hp
        simp [hsimp, hp]

/-- An ant that has already been inside a puddle for 1.5 s, penalty not yet
applied, at energy 100. -/
def hazardWitnessAnt : AntHazard :=
  { inPuddle := true, puddleTime := 3/2, puddleDamageApplied := false,
    energy := 100, dead := false }

/-- Witness for C7: ticking the 1.5 s-exposed ant by 600 ms inside the
puddle crosses the 2 s threshold: the model reports the accumulated time,
the one-time halving, and the reset/invariant clauses at this input. -/
theorem c7_witness :
    ((true = true → hazardWitnessAnt.inPuddle = true →
        (handlePuddleDamage true true 600 hazardWitnessAnt).puddleTime =
          hazardWitnessAnt.puddleTime + 600 / 1000) ∧
      (true = true → hazardWitnessAnt.inPuddle = true →
        2 ≤ hazardWitnessAnt.puddleTime + 600 / 1000 →
        hazardWitnessAnt.puddleDamageApplied = false →
        (handlePuddleDamage true true 600 hazardWitnessAnt).energy =
            hazardWitnessAnt.energy * (1/2) ∧
          (handlePuddleDamage true true 600 hazardWitnessAnt).puddleDamageApplied = true) ∧
      (true = true → hazardWitnessAnt.inPuddle = true →
        hazardWitnessAnt.puddleDamageApplied = true →
        (handlePuddleDamage true true 600 hazardWitnessAnt).energy = hazardWitnessAnt.energy) ∧
      (true = true → hazardWitnessAnt.inPuddle = true →
        7/2 ≤ hazardWitnessAnt.puddleTime + 600 / 1000 →
        (handlePuddleDamage true true 600 hazardWitnessAnt).dead = true) ∧
      (true = false → (handlePuddleDamage true true 600 hazardWitnessAnt).puddleTime = 0 ∧
        (handlePuddleDamage true true 600 hazardWitnessAnt).puddleDamageApplied = false) ∧
      ((handlePuddleDamage true true 600 hazardWitnessAnt).inPuddle = false →
        (handlePuddleDamage true true 600 hazardWitnessAnt).puddleTime = 0 ∧
          (handlePuddleDamage true true 600 hazardWitnessAnt).puddleDamageApplied = false)) :=
  c7_puddle_exposure_model true 600 hazardWitnessAnt
    (fun h => Bool.noConfusion h)

/-! ## C8: `releaseDangerPheromones` count and strength -/

/-- Below capacity, `addPheromone` grows the flat list by exactly one. -/
theorem addPheromone_length_of_lt (x y : ℚ) (t : PType) (i : ℚ) (s : PheromoneSystem)
    (h : s.pheromones.length < s.maxPheromones) :
    (PheromoneSystem.addPheromone x y t i s).pheromones.length = s.pheromones.length + 1 := by
  simp only [PheromoneSystem.addPheromone]
  rw [if_neg (by simp only [List.length_append, List.length_singleton]; omega)]
  simp

/-- `addPheromone` never changes the capacity field. -/
theorem addPheromone_maxPheromones (x y : ℚ) (t : PType) (i : ℚ) (s : PheromoneSystem) :
    (PheromoneSystem.addPheromone x y t i s).maxPheromones = s.maxPheromones := by
  simp only [PheromoneSystem.addPheromone]
  split_ifs <;> simp [removePheromonesFromGrid_maxPheromones]

/-- Folding danger `addPheromone` calls over a field with enough headroom
adds exactly one stored deposit per call. -/
theorem foldl_addPheromone_danger_length (l : List (ℚ × ℚ × ℚ)) (s : PheromoneSystem)
    (h : s.pheromones.length + l.length ≤ s.maxPheromones) :
    (l.foldl (fun s c => PheromoneSystem.addPheromone c.1 c.2.1 PType.danger c.2.2 s)
        s).pheromones.length = s.pheromones.length + l.length := by
  induction l generalizing s with
  | nil => simp
  | cons c rest ih =>
      simp only [List.foldl_cons, List.length_cons] at h ⊢
      have h1 : s.pheromones.length < s.maxPheromones := by omega
      have hlen := addPheromone_length_of_lt c.1 c.2.1 PType.danger c.2.2 s h1
      have hmax := addPheromone_maxPheromones c.1 c.2.1 PType.danger c.2.2 s
      rw [ih _ (by rw [hlen, hmax]; omega), hlen]
      omega

/-- C8: for every puddle death count `d`, `releaseDangerPheromones` issues
`min(d·8, 30)` danger `addPheromone` calls, each passed the strength
`min(2·(d/3), 4)` (`dangerPheromoneStrength = 2`); and on a field with
enough headroom the call stores exactly that many deposits. -/
theorem c8_release_danger_pheromones (x y : ℚ) (d : ℕ) (piQ : ℚ) (randDist : ℕ → ℚ)
    (cosFn sinFn : ℚ → ℚ) :
    ((dangerPheromoneCalls initialPuddleSystem x y d piQ randDist cosFn sinFn).length
        = min (d * 8) 30) ∧
      (∀ c ∈ dangerPheromoneCalls initialPuddleSystem x y d piQ randDist cosFn sinFn,
        c.2.2 = min (2 * ((d:ℚ) / 3)) 4) ∧
      (∀ s : PheromoneSystem,
        s.pheromones.length + min (d * 8) 30 ≤ s.maxPheromones →
        (releaseDangerPheromones initialPuddleSystem x y d piQ randDist cosFn sinFn
            s).pheromones.length = s.pheromones.length + min (d * 8) 30) := by
  refine ⟨by simp [dangerPheromoneCalls], ?_, ?_⟩
  · intro c hc
    simp only [dangerPheromoneCalls, List.mem_map, List.mem_range] at hc
    obtain ⟨i, _, rfl⟩ := hc
    simp [initialPuddleSystem]
  · intro s hs
    have := foldl_addPheromone_danger_length
      (dangerPheromoneCalls initialPuddleSystem x y d piQ randDist cosFn sinFn) s
      (by simpa [dangerPheromoneCalls] using hs)
    simpa [releaseDangerPheromones, dangerPheromoneCalls] using this

/-- Witness for C8: with `deathCount = 3`, the release issues
`min(24, 30) = 24` danger calls, each of strength exactly 2.0, and on the
empty initial field it stores exactly 24 deposits. -/
theorem c8_witness :
    ((dangerPheromoneCalls initialPuddleSystem 0 0 3 1 (fun _ => 1/2)
        (fun _ => 1) (fun _ => 0)).length = 24) ∧
      (∀ c ∈ dangerPheromoneCalls initialPuddleSystem 0 0 3 1 (fun _ => 1/2)
          (fun _ => 1) (fun _ => 0), c.2.2 = 2) ∧
      ((releaseDangerPheromones initialPuddleSystem 0 0 3 1 (fun _ => 1/2)
          (fun _ => 1) (fun _ => 0) initialPheromoneSystem).pheromones.length = 24) := by
  have h := c8_release_danger_pheromones 0 0 3 1 (fun _ => 1/2) (fun _ => 1) (fun _ => 0)
  refine ⟨by rw [h.1]; norm_num, ?_, ?_⟩
  · intro c hc
    rw [h.2.1 c hc]
    norm_num
  · have h3 := h.2.2 initialPheromoneSystem (by norm_num [initialPheromoneSystem])
    rw [h3]
    norm_num [initialPheromoneSystem]

/-! ## C9: `collectFood` transfer, carry flag and target clearing -/

/-- After the transfer, holding any food implies the carry-flag guard of
`collectFood` holds: the ant is full or the source ended up depleted. -/
theorem collectFood_guard_holds (a : AntFood) (f : FoodSrc) (hact : f.active = true)
    (_hcap : a.foodAmount ≤ a.maxFoodCarry)
    (hpos : 0 < a.foodAmount + min (a.maxFoodCarry - a.foodAmount) f.amount) :
    0 < a.foodAmount + min (a.maxFoodCarry - a.foodAmount) f.amount ∧
      (a.maxFoodCarry ≤ a.foodAmount + min (a.maxFoodCarry - a.foodAmount) f.amount ∨
        ({ amount := f.amount - min (a.maxFoodCarry - a.foodAmount) f.amount,
           active := f.active } : FoodSrc).isDepleted = true) := by
  refine ⟨hpos, ?_⟩
  rcases min_cases (a.maxFoodCarry - a.foodAmount) f.amount with ⟨hmin, hle⟩ | ⟨hmin, hlt⟩
  · left
    rw [hmin]
    linarith
  · right
    simp [FoodSrc.isDepleted, hmin, hact]

/-- A full ant satisfies the carry-flag guard of `collectFood`. -/
theorem collectFood_guard_of_full (a : AntFood) (f : FoodSrc) (hposcap : 0 < a.maxFoodCarry)
    (h1 : a.maxFoodCarry ≤ a.foodAmount + min (a.maxFoodCarry - a.foodAmount) f.amount) :
    0 < a.foodAmount + min (a.maxFoodCarry - a.foodAmount) f.amount ∧
      (a.maxFoodCarry ≤ a.foodAmount + min (a.maxFoodCarry - a.foodAmount) f.amount ∨
        ({ amount := f.amount - min (a.maxFoodCarry - a.foodAmount) f.amount,
           active := f.active } : FoodSrc).isDepleted = true) :=
  ⟨lt_of_lt_of_le hposcap h1, Or.inl h1⟩

/-- C9: when `collectFood` runs against an active, non-empty source (as the
`seekingFood` behaviour does within 20 units of its target), it transfers
exactly `min(maxFoodCarry - foodAmount, source.amount)` from the source to
the ant; the `carryingFood` flag is true as soon as any amount is held; and
the target is cleared when the ant is full or the source has become
depleted. -/
theorem c9_collectFood_transfer (a : AntFood) (f : FoodSrc)
    (hact : f.active = true) (hamt : 0 < f.amount)
    (_hfa : 0 ≤ a.foodAmount) (hcap : a.foodAmount ≤ a.maxFoodCarry)
    (hposcap : 0 < a.maxFoodCarry) :
    ((collectFood a f).1.foodAmount
        = a.foodAmount + min (a.maxFoodCarry - a.foodAmount) f.amount) ∧
      ((collectFood a f).2.amount
        = f.amount - min (a.maxFoodCarry - a.foodAmount) f.amount) ∧
      (0 < (collectFood a f).1.foodAmount → (collectFood a f).1.carryingFood = true) ∧
      ((a.maxFoodCarry ≤ (collectFood a f).1.foodAmount ∨
          (collectFood a f).2.isDepleted = true) →
        (collectFood a f).1.hasTarget = false) := by
  have hguard : (f.active && decide (0 < f.amount)) = true := by
    simp [hact, hamt]
  refine ⟨?_, ?_, ?_, ?_⟩
  · simp only [collectFood]
    rw [if_pos hguard]
    split_ifs <;> rfl
  · simp only [collectFood]
    rw [if_pos hguard]
  · intro hpos
    simp only [collectFood] at hpos ⊢
    rw [if_pos hguard] at hpos ⊢
    split_ifs at hpos ⊢
    all_goals first
      | rfl
      | exact absurd (collectFood_guard_holds a f hact hcap hpos) (by assumption)
  · intro hfull
    simp only [collectFood] at hfull ⊢
    rw [if_pos hguard] at hfull ⊢
    split_ifs at hfull ⊢
    all_goals first
      | rfl
      | (rcases hfull with h1 | h2
         · exact absurd (collectFood_guard_of_full a f hposcap h1) (by assumption)
         · exact absurd h2 (by assumption))

/-- An empty-handed ant with carry capacity 10 and a live target. -/
def collectWitnessAnt : AntFood :=
  { foodAmount := 0, maxFoodCarry := 10, carryingFood := false, hasTarget := true }

/-- An active source holding 4 units. -/
def collectWitnessSource : FoodSrc := { amount := 4, active := true }

/-- Witness for C9: the empty ant collecting from the 4-unit source gets
`min(10, 4) = 4` units, the source keeps `4 - 4 = 0`, the carry flag turns
on once food is held, and a full-or-depleted outcome clears the target. -/
theorem c9_witness :
    ((collectFood collectWitnessAnt collectWitnessSource).1.foodAmount
        = collectWitnessAnt.foodAmount +
          min (collectWitnessAnt.maxFoodCarry - collectWitnessAnt.foodAmount)
            collectWitnessSource.amount) ∧
      ((collectFood collectWitnessAnt collectWitnessSource).2.amount
        = collectWitnessSource.amount -
          min (collectWitnessAnt.maxFoodCarry - collectWitnessAnt.foodAmount)
            collectWitnessSource.amount) ∧
      (0 < (collectFood collectWitnessAnt collectWitnessSource).1.foodAmount →
        (collectFood collectWitnessAnt collectWitnessSource).1.carryingFood = true) ∧
      ((collectWitnessAnt.maxFoodCarry ≤
            (collectFood collectWitnessAnt collectWitnessSource).1.foodAmount ∨
          (collectFood collectWitnessAnt collectWitnessSource).2.isDepleted = true) →
        (collectFood collectWitnessAnt collectWitnessSource).1.hasTarget = false) :=
  c9_collectFood_transfer collectWitnessAnt collectWitnessSource rfl
    (by norm_num [collectWitnessSource]) (by norm_num [collectWitnessAnt])
    (by norm_num [collectWitnessAnt]) (by norm_num [collectWitnessAnt])
